import Mathlib

/-!
Verification development for the Adaptive DOM Structure Signal Engine
(`src/strategies/dom_structure_strategy.py` and `src/strategies/templates.py`).

Numeric values are modelled as rationals (`ℚ`).  External collaborators
(the DOM analytics processor, the adaptive-threshold estimator internals,
the risk engine and the threshold-model client) are represented by oracle
inputs carried in `SnapInput`; everything that lives in the provided
sources is translated directly.
-/

namespace DomStructure

/-- One DOM level: a `(price, size)` pair (`DomLevel`). -/
structure Level where
  price : ℚ
  size : ℚ
deriving DecidableEq

/-- A DOM snapshot as consumed by `_on_dom_snapshot`: best-first bid/ask
levels, the wall-clock capture timestamp (`received_at.timestamp()`), and
the optional entries of `metadata["metrics"]` that the strategy reads. -/
structure Snapshot where
  symbol : String
  bids : List Level
  asks : List Level
  receivedAt : ℚ
  metaMid : Option ℚ
  metaSpread : Option ℚ
  metaTotalBid : Option ℚ
  metaTotalAsk : Option ℚ
deriving DecidableEq

/-- Translation of `_extract_mid_price` (dom_structure_strategy.py:1423):
with both best levels present the mid is `bid + (ask - bid)/2`; otherwise
the metadata mid is used when present. -/
def extractMidPrice (snap : Snapshot) : Option ℚ :=
  match snap.bids.head?, snap.asks.head? with
  | some bb, some ba => some (bb.price + (ba.price - bb.price) / 2)
  | _, _ => snap.metaMid

/-- Translation of `_compute_imbalance` (dom_structure_strategy.py:1432):
level sums, overridden by truthy metadata totals (`or total` keeps the
computed sum when the metadata value is zero).  Returns
`(imbalance, total_bid, total_ask)`. -/
def computeImbalance (snap : Snapshot) : ℚ × ℚ × ℚ :=
  let totalBid0 := (snap.bids.map (fun l => l.size)).sum
  let totalAsk0 := (snap.asks.map (fun l => l.size)).sum
  let totalBid := match snap.metaTotalBid with
    | some v => if v = 0 then totalBid0 else v
    | none => totalBid0
  let totalAsk := match snap.metaTotalAsk with
    | some v => if v = 0 then totalAsk0 else v
    | none => totalAsk0
  (totalBid - totalAsk, totalBid, totalAsk)

/-- Translation of `_compute_spread` (dom_structure_strategy.py:1444). -/
def computeSpread (snap : Snapshot) : Option ℚ :=
  match snap.metaSpread with
  | some v => some v
  | none =>
    match snap.bids.head?, snap.asks.head? with
    | some bb, some ba => some (ba.price - bb.price)
    | _, _ => none

/-- Translation of the structure-window update of `_update_structure`
(dom_structure_strategy.py:1459-1462): append the sample, then pop stale
entries from the front while the head is older than the cutoff. -/
def structUpdate (windowSeconds : ℚ) (w : List (ℚ × ℚ)) (t p : ℚ) :
    List (ℚ × ℚ) :=
  (w ++ [(t, p)]).dropWhile (fun e => decide (e.1 < t - windowSeconds))

/-- Folding a whole sequence of `(timestamp, mid_price)` updates through the
structure window, starting from the empty window a strategy starts with. -/
def structRun (windowSeconds : ℚ) (updates : List (ℚ × ℚ)) : List (ℚ × ℚ) :=
  updates.foldl (fun w u => structUpdate windowSeconds w u.1 u.2) []

/-- Translation of `_structure_extremes` (dom_structure_strategy.py:1507). -/
def structureExtremes (w : List (ℚ × ℚ)) : Option ℚ × Option ℚ :=
  match w with
  | [] => (none, none)
  | e :: es =>
    (some ((es.map (fun x => x.2)).foldl min e.2),
     some ((es.map (fun x => x.2)).foldl max e.2))

/-- ASCII upper-casing (Python `str.upper()` for the ASCII symbols this
engine handles), defined over the character data so it evaluates. -/
def toUpperStr (s : String) : String :=
  ⟨s.data.map Char.toUpper⟩

/-- ASCII lower-casing (Python `str.lower()`), over the character data. -/
def toLowerStr (s : String) : String :=
  ⟨s.data.map Char.toLower⟩

/-- Whitespace stripping (Python `str.strip()`), over the character data. -/
def trimStr (s : String) : String :=
  ⟨((s.data.dropWhile Char.isWhitespace).reverse.dropWhile Char.isWhitespace).reverse⟩

/-- The `_TICK_SIZES` table (dom_structure_strategy.py:525). -/
def TICK_SIZES : List (String × ℚ) :=
  [("ES", 1/4), ("MES", 1/4), ("NQ", 1/4), ("MNQ", 1/4),
   ("YM", 1), ("MYM", 1), ("RTY", 1/10), ("M2K", 1/10), ("VX", 1/20)]

/-- Translation of `_tick_size` (dom_structure_strategy.py:2347): table
lookup on the upper-cased symbol, defaulting to 0.25. -/
def tickSize (symbol : String) : ℚ :=
  (TICK_SIZES.lookup (toUpperStr symbol)).getD (1/4)

/-- The zone tolerance `structure_tolerance_ticks * tick` computed inside
`_detect_zone` (dom_structure_strategy.py:1520). -/
def zoneTolerance (toleranceTicks : ℚ) (symbol : String) : ℚ :=
  toleranceTicks * tickSize symbol

/-- A support/resistance zone (the strings returned by `_detect_zone`). -/
inductive Zone
  | support
  | resistance
deriving DecidableEq

/-- Translation of `_detect_zone` (dom_structure_strategy.py:1514). -/
def detectZone (toleranceTicks : ℚ) (symbol : String) (mid : ℚ)
    (support resistance : Option ℚ) : Option Zone :=
  match support, resistance with
  | some sup, some res =>
    let tolerance := zoneTolerance toleranceTicks symbol
    if mid ≤ sup + tolerance then some .support
    else if res - tolerance ≤ mid then some .resistance
    else none
  | _, _ => none

/-- Translation of `_trend_score` (dom_structure_strategy.py:1528). -/
def trendScore (imbalance totalBid totalAsk : ℚ) : ℚ :=
  if totalBid + totalAsk ≤ 0 then 0 else imbalance / (totalBid + totalAsk)

/-- Order side (the `OrderSide` values used by `_resolve_side`). -/
inductive Side
  | buy
  | sell
deriving DecidableEq

/-- Translation of `_resolve_side` (dom_structure_strategy.py:2314):
support with non-negative imbalance buys, resistance with non-positive
imbalance sells, anything else resolves no side. -/
def resolveSide (zone : Zone) (imbalance : ℚ) : Option Side :=
  if zone = Zone.support ∧ 0 ≤ imbalance then some .buy
  else if zone = Zone.resistance ∧ imbalance ≤ 0 then some .sell
  else none

/-- A validated per-regime override entry, as produced by
`_normalise_regime_overrides` (only positive hit counts and non-negative
quantities/cooldowns survive validation). -/
structure RegimeOverride where
  requiredHits : Option ℕ
  cooldownSeconds : Option ℚ
  defaultQuantity : Option ℚ
deriving DecidableEq

/-- Resolved regime settings (`_resolve_regime_settings` result). -/
structure RegimeSettings where
  requiredHits : ℕ
  cooldownSeconds : ℚ
  defaultQuantity : ℚ
deriving DecidableEq

/-- Engine configuration: the strategy parameters read on the snapshot
path, after `__post_init__` normalisation.  The scale exponents are
modelled as natural numbers (the source allows any non-negative float;
the claims only concern integral exponents). -/
structure Config where
  symbol : String
  minProcessingInterval : ℚ
  structureWindowSeconds : ℚ
  structureToleranceTicks : ℚ
  signalFrequencySeconds : ℚ
  cooldownSeconds : ℚ
  defaultQuantity : ℚ
  minSignalConditions : ℕ
  quantityScaleExponent : ℕ
  quantityScaleBounds : ℚ × ℚ
  cooldownScaleExponent : ℕ
  cooldownScaleBounds : ℚ × ℚ
  volatilityScaleBounds : ℚ × ℚ
  momentumTickThreshold : ℚ
  thresholdModelEnabled : Bool
  thresholdModelRefreshSeconds : ℚ
  regimeOverrides : List (String × RegimeOverride)
deriving DecidableEq

/-- Translation of `_resolve_regime_settings`
(dom_structure_strategy.py:2443): engine-level defaults, overridden by the
regime's entry, falling back to the "normal" entry for non-normal regimes,
each field re-clamped after the update. -/
def resolveRegimeSettings (cfg : Config) (regime : String) : RegimeSettings :=
  let lowered := toLowerStr (trimStr (if regime = "" then "normal" else regime))
  let regimeKey := if lowered = "" then "normal" else lowered
  let base : RegimeSettings :=
    { requiredHits := max 1 cfg.minSignalConditions
      cooldownSeconds := max 0 cfg.cooldownSeconds
      defaultQuantity := max 0 cfg.defaultQuantity }
  let ov := match cfg.regimeOverrides.lookup regimeKey with
    | some o => some o
    | none => if regimeKey ≠ "normal" then cfg.regimeOverrides.lookup "normal" else none
  match ov with
  | none => base
  | some o =>
    { requiredHits := max 1 (o.requiredHits.getD base.requiredHits)
      cooldownSeconds := max 0 (o.cooldownSeconds.getD base.cooldownSeconds)
      defaultQuantity := max 0 (o.defaultQuantity.getD base.defaultQuantity) }

/-- Translation of `_clamp_scale` (dom_structure_strategy.py:2504): swap
inverted bounds, then clamp. -/
def clampScale (v : ℚ) (bounds : ℚ × ℚ) : ℚ :=
  let lo := if bounds.2 < bounds.1 then bounds.2 else bounds.1
  let hi := if bounds.2 < bounds.1 then bounds.1 else bounds.2
  min (max v lo) hi

/-- Translation of `_compute_quantity_scale`
(dom_structure_strategy.py:2513): invert the exponentiated volatility
scale (with 1e-9 guards) and clamp to the quantity-scale bounds. -/
def computeQuantityScale (exponent : ℕ) (bounds : ℚ × ℚ)
    (volatilityScale : ℚ) : ℚ :=
  let baseScale := max volatilityScale (1/10^9)
  let rawScale := if exponent = 0 then 1 else baseScale ^ exponent
  let inverted := 1 / max rawScale (1/10^9)
  clampScale inverted bounds

/-- Translation of `_compute_cooldown_scale`
(dom_structure_strategy.py:2523). -/
def computeCooldownScale (exponent : ℕ) (bounds : ℚ × ℚ)
    (volatilityScale : ℚ) : ℚ :=
  let baseScale := max volatilityScale (1/10^9)
  let rawScale := if exponent = 0 then 1 else baseScale ^ exponent
  clampScale rawScale bounds

/-- Translation of the contract-quantity sizing of `_on_dom_snapshot`
(dom_structure_strategy.py:1098-1101): clamp the scaled quantity at zero,
floor it when positive. -/
def computeContractQuantity (baseQuantity qScale : ℚ) : ℤ :=
  let scaled := max 0 (baseQuantity * qScale)
  if 0 < scaled then max 0 ⌊scaled⌋ else 0

/-- The claim's reading of the quantity scale:
`clamp(volatility_scale ^ (-exponent), bounds)` with no small-value
guards (compared against `computeQuantityScale` below). -/
def quantityScalePerClaim (exponent : ℕ) (bounds : ℚ × ℚ)
    (volatilityScale : ℚ) : ℚ :=
  clampScale ((volatilityScale ^ exponent)⁻¹) bounds

/-! ### Threshold pipeline (`_evaluate_conditions`, claim C2)

The adaptive-threshold helpers `scale_threshold`, `smooth` and
`quantile_adjust` live in `src/strategies/adaptive_threshold.py`, which is
not among the provided sources; `scale_threshold` and a single `smooth`
step are modelled from spec §4.2.  The `quantile_adjust` result and the
per-key override/model lookups are passed in as `Option ℚ` arguments (the
value the source obtains from `quantile_adjust(key, target)`,
`_adaptive_threshold_overrides.get(key)` and `model_thresholds.get(key)`
respectively). -/

/-- Modelled from the spec: `scale_threshold(base, min?, max?)` of
`AdaptiveThresholdState` multiplies `base` by the volatility scale and
optionally re-clamps the product to the given bounds. -/
def scaleThreshold (volatilityScale base : ℚ) (mn mx : Option ℚ) : ℚ :=
  let v := base * volatilityScale
  let v := match mn with
    | some m => max m v
    | none => v
  match mx with
  | some m => min m v
  | none => v

/-- Modelled from the spec: one `smooth` step of `AdaptiveThresholdState`.
The first observation seeds `smoothed := raw`; afterwards the smoothed
value moves by `factor * (raw - smoothed_old)` only when
`|raw - smoothed_old| ≥ hysteresis`, else it is retained unchanged. -/
def smoothStep (prev : Option ℚ) (raw factor hysteresis : ℚ) : ℚ :=
  match prev with
  | none => raw
  | some p => if hysteresis ≤ |raw - p| then p + factor * (raw - p) else p

/-- Clamp to `[0, 1]`; the source writes this both as
`max(0.0, min(1.0, x))` and `min(1.0, max(0.0, x))`, which agree. -/
def clamp01 (q : ℚ) : ℚ :=
  min 1 (max 0 q)

/-- Clamp below by `lo` and (optionally) above by `hi`, the order
`_coerce_override` / `_apply_model_override` apply their `minimum` /
`maximum` arguments in. -/
def clampRange (lo : ℚ) (hi : Option ℚ) (v : ℚ) : ℚ :=
  let v := max lo v
  match hi with
  | some h => min h v
  | none => v

/-- Stacking-threshold quantile blend (dom_structure_strategy.py:1671-1675):
`(base + max(0, quantile)) / 2` when a quantile value is available. -/
def stackingBlend (base : ℚ) (quantile : Option ℚ) : ℚ :=
  match quantile with
  | some q => (base + max 0 q) / 2
  | none => base

/-- OBI-threshold quantile blend (dom_structure_strategy.py:1725-1729 and
1750-1754): `(base + clamp01 quantile) / 2`. -/
def obiBlend (base : ℚ) (quantile : Option ℚ) : ℚ :=
  match quantile with
  | some q => (base + clamp01 q) / 2
  | none => base

/-- OFI-threshold quantile blend (dom_structure_strategy.py:1848-1852):
blending happens only for a positive base, with `|quantile|`. -/
def ofiBlend (base : ℚ) (quantile : Option ℚ) : ℚ :=
  match quantile with
  | some q => if 0 < base then (base + |q|) / 2 else base
  | none => base

/-- Translation of the stacking-threshold computation of
`_evaluate_conditions` (dom_structure_strategy.py:1668-1693): blend,
scale with a floor of 0, replace by the clamped manual override when one
exists, else by the clamped model value when one exists, then smooth. -/
def stackingThresholdUsed (volatilityScale base : ℚ)
    (quantile override modelValue : Option ℚ)
    (prev : Option ℚ) (factor hysteresis : ℚ) : ℚ :=
  let raw := scaleThreshold volatilityScale (stackingBlend base quantile) (some 0) none
  let raw := match override with
    | some ov => clampRange 0 none ov
    | none =>
      match modelValue with
      | some mv => clampRange 0 none mv
      | none => raw
  smoothStep prev raw factor hysteresis

/-- Translation of the long-OBI-threshold computation of
`_evaluate_conditions` (dom_structure_strategy.py:1722-1746). -/
def obiLongThresholdUsed (volatilityScale base : ℚ)
    (quantile override modelValue : Option ℚ)
    (prev : Option ℚ) (factor hysteresis : ℚ) : ℚ :=
  let raw := scaleThreshold volatilityScale (clamp01 (obiBlend base quantile))
    (some 0) (some 1)
  let raw := match override with
    | some ov => clampRange 0 (some 1) ov
    | none =>
      match modelValue with
      | some mv => clampRange 0 (some 1) mv
      | none => raw
  smoothStep prev raw factor hysteresis

/-- Translation of the short-OBI-threshold computation of
`_evaluate_conditions` (dom_structure_strategy.py:1747-1775). -/
def obiShortThresholdUsed (volatilityScale base : ℚ)
    (quantile override modelValue : Option ℚ)
    (prev : Option ℚ) (factor hysteresis : ℚ) : ℚ :=
  let raw := scaleThreshold volatilityScale (clamp01 (obiBlend base quantile))
    (some 0) (some 1)
  let raw := match override with
    | some ov => clampRange 0 (some 1) ov
    | none =>
      match modelValue with
      | some mv => clampRange 0 (some 1) mv
      | none => raw
  smoothStep prev raw factor hysteresis

/-- Translation of the OFI-threshold computation of
`_evaluate_conditions` (dom_structure_strategy.py:1845-1870). -/
def ofiThresholdUsed (volatilityScale base : ℚ)
    (quantile override modelValue : Option ℚ)
    (prev : Option ℚ) (factor hysteresis : ℚ) : ℚ :=
  let raw := scaleThreshold volatilityScale (ofiBlend base quantile) (some 0) none
  let raw := match override with
    | some ov => clampRange 0 none ov
    | none =>
      match modelValue with
      | some mv => clampRange 0 none mv
      | none => raw
  smoothStep prev raw factor hysteresis

/-- The threshold pipeline exactly as claim C2 words it: choose the value
with precedence override > model > blended adaptive value, then pass the
chosen value through `scale_threshold`, then through `smooth`. -/
def thresholdPerClaim (volatilityScale blended : ℚ)
    (override modelValue : Option ℚ) (lo : ℚ) (hi : Option ℚ)
    (prev : Option ℚ) (factor hysteresis : ℚ) : ℚ :=
  let chosen := override.getD (modelValue.getD blended)
  smoothStep prev (scaleThreshold volatilityScale chosen (some lo) hi) factor hysteresis

/-- The amended threshold pipeline: same precedence, but the manual
override and the model value bypass `scale_threshold` (they are only
clamped to the threshold's range); only the blended adaptive value is
multiplied by the volatility scale.  Everything is smoothed. -/
def thresholdPerAmended (volatilityScale blended : ℚ)
    (override modelValue : Option ℚ) (lo : ℚ) (hi : Option ℚ)
    (prev : Option ℚ) (factor hysteresis : ℚ) : ℚ :=
  let chosen := match override with
    | some ov => clampRange lo hi ov
    | none =>
      match modelValue with
      | some mv => clampRange lo hi mv
      | none => scaleThreshold volatilityScale blended (some lo) hi
  smoothStep prev chosen factor hysteresis

/-! ### Spread and momentum conditions (claim C10) -/

/-- The spread bound of the spread condition
(dom_structure_strategy.py:1899): `max(tick, tolerance_ticks * tick)`. -/
def spreadConditionBound (toleranceTicks : ℚ) (symbol : String) : ℚ :=
  max (tickSize symbol) (toleranceTicks * tickSize symbol)

/-- Translation of the spread condition
(dom_structure_strategy.py:1898-1902): false when no spread is known. -/
def spreadCondition (toleranceTicks : ℚ) (symbol : String)
    (spread : Option ℚ) : Bool :=
  match spread with
  | some sp => decide (sp ≤ spreadConditionBound toleranceTicks symbol)
  | none => false

/-- The momentum threshold `tick_size * momentum_tick_threshold`
(dom_structure_strategy.py:1916). -/
def momentumThresholdOf (symbol : String) (momentumTickThreshold : ℚ) : ℚ :=
  tickSize symbol * momentumTickThreshold

/-- Translation of the momentum condition
(dom_structure_strategy.py:1914-1920). -/
def momentumCondition (symbol : String) (momentumTickThreshold : ℚ)
    (momentumReady : Bool) (momentum : ℚ) : Bool :=
  if 0 < momentumTickThreshold ∧ 0 < tickSize symbol then
    (momentumReady && decide (momentumThresholdOf symbol momentumTickThreshold ≤ |momentum|))
      || !momentumReady
  else true

/-! ### External threshold model (claim C5) -/

/-- A value in the model's response payload: a finite number, a non-finite
float, or something `float()` rejects. -/
inductive MVal
  | num (q : ℚ)
  | nonFinite
  | nonNumeric
deriving DecidableEq

/-- Outcome of the asynchronous `predict_thresholds` call as observed by
`_invoke_threshold_model`: timeout, raised exception, a non-mapping
payload, or a mapping payload. -/
inductive ModelResponse
  | timeout
  | errored
  | nonMapping
  | mapping (pairs : List (String × MVal))
deriving DecidableEq

/-- Translation of `_coerce_numeric` (dom_structure_strategy.py:1988):
only finite numerics survive. -/
def coerceNumeric : MVal → Option ℚ
  | .num q => some q
  | .nonFinite => none
  | .nonNumeric => none

/-- Translation of `_invoke_threshold_model`
(dom_structure_strategy.py:2028-2079): timeouts, exceptions and
non-mapping payloads yield `none`; a mapping payload is sanitized by
dropping non-numeric and non-finite values. -/
def invokeThresholdModel (resp : ModelResponse) :
    Option (List (String × ℚ)) :=
  match resp with
  | .timeout => none
  | .errored => none
  | .nonMapping => none
  | .mapping pairs =>
    some (pairs.filterMap (fun kv => (coerceNumeric kv.2).map (fun q => (kv.1, q))))

/-- The refresh-due test of `_maybe_refresh_threshold_model`
(dom_structure_strategy.py:2011-2015): no cached thresholds, or enough
monotonic time elapsed since the last refresh. -/
def refreshDue (cache : List (String × ℚ)) (lastRefresh refreshSeconds now : ℚ) :
    Bool :=
  cache.isEmpty || decide (refreshSeconds ≤ now - lastRefresh)

/-- Result triple of `_maybe_refresh_threshold_model`: the new cache, the
new last-refresh stamp, and the thresholds handed to condition
evaluation for this snapshot. -/
structure RefreshResult where
  cache : List (String × ℚ)
  lastRefresh : ℚ
  thresholds : Option (List (String × ℚ))
deriving DecidableEq

/-- Translation of `_maybe_refresh_threshold_model`
(dom_structure_strategy.py:2001-2025): when disabled or without a client
nothing happens; when a refresh is due the model is invoked, a failure
clears the cache, a success replaces it; an empty cache yields no
thresholds. -/
def maybeRefreshThresholdModel (enabled hasClient : Bool)
    (cache : List (String × ℚ)) (lastRefresh refreshSeconds now : ℚ)
    (resp : ModelResponse) : RefreshResult :=
  if !enabled then ⟨cache, lastRefresh, none⟩
  else if !hasClient then ⟨cache, lastRefresh, none⟩
  else
    let cache' := if refreshDue cache lastRefresh refreshSeconds now then
        match invokeThresholdModel resp with
        | none => []
        | some r => r
      else cache
    let lastRefresh' := if refreshDue cache lastRefresh refreshSeconds now then now
      else lastRefresh
    ⟨cache', lastRefresh', if cache'.isEmpty then none else some cache'⟩

/-- Run a sequence of snapshots' refresh attempts, each given as a
`(monotonic_now, response)` pair, collecting the thresholds each snapshot
hands to condition evaluation. -/
def refreshSequence (refreshSeconds : ℚ) (cache : List (String × ℚ))
    (lastRefresh : ℚ) : List (ℚ × ModelResponse) →
    List (Option (List (String × ℚ)))
  | [] => []
  | step :: rest =>
    let r := maybeRefreshThresholdModel true true cache lastRefresh
      refreshSeconds step.1 step.2
    r.thresholds :: refreshSequence refreshSeconds r.cache r.lastRefresh rest

/-- A model call that fails in one of the three ways claim C5 lists. -/
def failedResponse (resp : ModelResponse) : Prop :=
  resp = .timeout ∨ resp = .errored ∨ resp = .nonMapping

/-! ### StrategySignal quantity coercion (claim C9) -/

/-- The raw quantity handed to `StrategySignal`: a finite numeric, a
non-finite float (`math.isfinite` fails), or a value `float()` rejects. -/
inductive RawQuantity
  | num (q : ℚ)
  | nonFinite
  | nonNumeric
deriving DecidableEq

/-- The negative-fraction clamp of `StrategySignal.__post_init__`
(templates.py:103-104). -/
def clampNegFraction (x : ℚ) : ℚ :=
  if x < 0 then 0 else x

/-- The fraction post-processing of `StrategySignal.__post_init__`
(templates.py:103-106): negative fractions are zeroed, and positive
fractions below 1e-9 are treated as floating-point noise and zeroed. -/
def clampFraction (x : ℚ) : ℚ :=
  if 0 < clampNegFraction x ∧ clampNegFraction x < 1/10^9 then 0
  else clampNegFraction x

/-- Translation of the quantity/fraction computation of
`StrategySignal.__post_init__` (templates.py:87-106): non-numeric and
non-finite inputs collapse to 0; non-negative numerics floor, negative
numerics ceil (truncation toward zero); the fractional remainder is
clamped at zero and zeroed when below 1e-9. -/
def signalQuantityParts (raw : RawQuantity) : ℤ × ℚ :=
  let numeric : ℚ := match raw with
    | .num q => q
    | .nonFinite => 0
    | .nonNumeric => 0
  let integerQuantity : ℤ := if 0 ≤ numeric then ⌊numeric⌋ else ⌈numeric⌉
  let fractional : ℚ :=
    if 0 ≤ numeric then numeric - ⌊numeric⌋ else (⌈numeric⌉ : ℚ) - numeric
  (integerQuantity, clampFraction fractional)

/-- Translation of the metadata handling of
`StrategySignal.__post_init__` (templates.py:108-121): a positive
surviving fraction is recorded via `setdefault` under
"quantity_fractional_discarded". -/
def mkSignalQuantityMetadata (raw : RawQuantity)
    (metadata : List (String × ℚ)) : ℤ × List (String × ℚ) :=
  let parts := signalQuantityParts raw
  let metadata :=
    if 0 < parts.2 ∧ metadata.lookup "quantity_fractional_discarded" = none then
      metadata ++ [("quantity_fractional_discarded", parts.2)]
    else metadata
  (parts.1, metadata)

/-! ### The snapshot-processing state machine (`_on_dom_snapshot`)

`_evaluate_conditions`' hit count, the analytics metrics, the adaptive
estimator's updated scale, the regime classification and the risk
decision depend on collaborators outside the provided sources; they enter
as oracle fields of `SnapInput`.  Everything else follows
dom_structure_strategy.py lines 983-1260. -/

/-- An emitted signal (side and integer contract quantity). -/
structure Signal where
  side : Side
  quantity : ℕ
deriving DecidableEq

/-- The engine state mutated by `_on_dom_snapshot` (a slice of the
strategy's fields; telemetry bookkeeping and the latest-adaptive-threshold
debug payloads are not modelled). -/
structure EngineState where
  structureWindow : List (ℚ × ℚ)
  recentMetrics : List (List (String × ℚ))
  adaptiveOverrides : List (String × ℚ)
  lastVolatilityScale : ℚ
  currentRegime : String
  momentumReady : Bool
  lastMid : Option ℚ
  lastProcessMono : ℚ
  lastSignalMono : ℚ
  lastSignalWall : ℚ
  cooldownUntil : ℚ
  cooldownNoticeUntil : ℚ
  breakerTripped : Bool
  lossStreak : ℕ
  modelCache : List (String × ℚ)
  modelLastRefresh : ℚ
  regimeRuntimeSettings : RegimeSettings
  signals : List Signal
deriving DecidableEq

/-- Per-snapshot inputs: the snapshot itself, the two monotonic clock
readings `_on_dom_snapshot` takes (lines 989 and 1132), and the oracles
for the external collaborators. -/
structure SnapInput where
  snapshot : Snapshot
  nowMono : ℚ
  nowMono2 : ℚ
  scaleOracle : ℚ
  regimeOracle : String
  metricsOracle : List (String × ℚ)
  conditionHits : ℕ
  hasModelClient : Bool
  modelResponse : ModelResponse
  riskPermitted : Bool
deriving DecidableEq

/-- Translation of the state effects of `_update_structure`
(dom_structure_strategy.py:1458-1504): window append/evict, adaptive
update (oracled, with the manual volatility-scale override taking
precedence as `apply_overrides` echoes the forced value), and the
recent-metrics append. -/
def updateStructureState (cfg : Config) (s : EngineState)
    (timestamp mid scaleOracle : ℚ) : EngineState :=
  let scale := match s.adaptiveOverrides.lookup "volatility_scale" with
    | some ov => ov
    | none => scaleOracle
  { s with
    structureWindow := structUpdate cfg.structureWindowSeconds s.structureWindow timestamp mid
    lastVolatilityScale := scale
    recentMetrics := s.recentMetrics ++
      [[("timestamp", timestamp), ("mid_price", mid), ("volatility_scale", scale)]] }

/-- Translation of `_compute_momentum` (dom_structure_strategy.py:1535):
returns the mid-price change (0 on the first sample) and records the new
mid and readiness. -/
def computeMomentum (s : EngineState) (mid : ℚ) : ℚ × EngineState :=
  (match s.lastMid with
   | none => 0
   | some prev => mid - prev,
   { s with lastMid := some mid, momentumReady := s.lastMid.isSome })

/-- The metric keys `_update_metrics` tracks into the recent-metrics
window (dom_structure_strategy.py:1588-1593). -/
def trackedKeys : List String :=
  ["obi", "ofi", "stacking_intensity_buy", "stacking_intensity_sell"]

/-- Translation of the recent-metrics append of `_update_metrics`
(dom_structure_strategy.py:1594-1596); the analytics output itself is the
`metrics` oracle. -/
def appendTrackedMetrics (s : EngineState) (metrics : List (String × ℚ)) :
    EngineState :=
  let tracked := trackedKeys.filterMap (fun k => (metrics.lookup k).map (fun v => (k, v)))
  { s with
    recentMetrics := if tracked.isEmpty then s.recentMetrics
      else s.recentMetrics ++ [tracked] }

/-- The bounding `max(low, min(high, v))` applied to a model-supplied
volatility scale (dom_structure_strategy.py:1045-1046). -/
def boundScale (bounds : ℚ × ℚ) (v : ℚ) : ℚ :=
  max bounds.1 (min bounds.2 v)

/-- Result of the threshold-model block of `_on_dom_snapshot`. -/
structure ModelBlockResult where
  state : EngineState
  modelThresholds : Option (List (String × ℚ))
  volatilityScale : ℚ
deriving DecidableEq

/-- Translation of the threshold-model block of `_on_dom_snapshot`
(dom_structure_strategy.py:1021-1066): attempt a refresh when enabled
with a client, and apply a model-supplied `volatility_scale` (bounded to
the scale bounds) when the refreshed thresholds carry one. -/
def modelRefreshBlock (cfg : Config) (s : EngineState) (inp : SnapInput)
    (volatilityScale : ℚ) : ModelBlockResult :=
  if cfg.thresholdModelEnabled && inp.hasModelClient then
    let rr := maybeRefreshThresholdModel cfg.thresholdModelEnabled inp.hasModelClient
      s.modelCache s.modelLastRefresh cfg.thresholdModelRefreshSeconds
      inp.nowMono inp.modelResponse
    let modelScale : Option ℚ := match rr.thresholds with
      | some m => m.lookup "volatility_scale"
      | none => none
    ⟨{ s with
        modelCache := rr.cache
        modelLastRefresh := rr.lastRefresh
        lastVolatilityScale := match modelScale with
          | some mv => boundScale cfg.volatilityScaleBounds mv
          | none => s.lastVolatilityScale }
     , rr.thresholds
     , match modelScale with
       | some mv => boundScale cfg.volatilityScaleBounds mv
       | none => volatilityScale⟩
  else ⟨s, none, volatilityScale⟩

/-- The values gathered before the gating cascade runs. -/
structure ReadyData where
  zone : Zone
  imbalance : ℚ
  nowWall : ℚ
  hits : ℕ
  requiredHits : ℕ
  scaledCooldown : ℚ
  contractQuantity : ℤ
deriving DecidableEq

/-- Result of the pre-gating part of `_on_dom_snapshot`. -/
inductive PreResult
  | wrongSymbol
  | throttled
  | noMid
  | noZone
  | ready (r : ReadyData)
deriving DecidableEq

/-- Translation of `_on_dom_snapshot` up to the gating cascade
(dom_structure_strategy.py:983-1119): symbol filter, processing-interval
throttle (which stamps `_last_process_monotonic` when passed), mid-price
extraction, structure update, zone detection, regime/momentum/metrics
updates, the optional model refresh, regime-settings resolution and
quantity/cooldown scaling. -/
def preProcess (cfg : Config) (s : EngineState) (inp : SnapInput) :
    EngineState × PreResult :=
  if toUpperStr inp.snapshot.symbol ≠ cfg.symbol then (s, .wrongSymbol)
  else if 0 < cfg.minProcessingInterval ∧
      inp.nowMono - s.lastProcessMono < cfg.minProcessingInterval then
    (s, .throttled)
  else
    let s := { s with lastProcessMono := inp.nowMono }
    match extractMidPrice inp.snapshot with
    | none => (s, .noMid)
    | some mid =>
      let imb := (computeImbalance inp.snapshot).1
      let totalBid := (computeImbalance inp.snapshot).2.1
      let totalAsk := (computeImbalance inp.snapshot).2.2
      let _spread := computeSpread inp.snapshot
      let nowWall := inp.snapshot.receivedAt
      let s := updateStructureState cfg s nowWall mid inp.scaleOracle
      let supportLevel := (structureExtremes s.structureWindow).1
      let resistanceLevel := (structureExtremes s.structureWindow).2
      match detectZone cfg.structureToleranceTicks cfg.symbol mid
          supportLevel resistanceLevel with
      | none => (s, .noZone)
      | some zone =>
        let _trend := trendScore imb totalBid totalAsk
        let volatilityScale := s.lastVolatilityScale
        let regime := inp.regimeOracle
        let s := { s with currentRegime := regime }
        let s := (computeMomentum s mid).2
        let s := appendTrackedMetrics s inp.metricsOracle
        let mb := modelRefreshBlock cfg s inp volatilityScale
        let s := mb.state
        let volatilityScale := mb.volatilityScale
        let hits := inp.conditionHits
        let rs := resolveRegimeSettings cfg regime
        let s := { s with regimeRuntimeSettings := rs }
        let qScale := computeQuantityScale cfg.quantityScaleExponent
          cfg.quantityScaleBounds volatilityScale
        let cScale := computeCooldownScale cfg.cooldownScaleExponent
          cfg.cooldownScaleBounds volatilityScale
        (s, .ready
          { zone := zone
            imbalance := imb
            nowWall := nowWall
            hits := hits
            requiredHits := rs.requiredHits
            scaledCooldown := max 0 (rs.cooldownSeconds * cScale)
            contractQuantity := computeContractQuantity rs.defaultQuantity qScale })

/-- Outcome of processing one snapshot. -/
inductive Outcome
  | wrongSymbol
  | throttled
  | noMid
  | noZone
  | belowHits
  | cooling (noticeEmitted : Bool)
  | breaker
  | frequency
  | noSide
  | zeroQuantity
  | riskDenied
  | emitted (side : Side) (quantity : ℕ)
deriving DecidableEq

/-- Translation of the gating cascade and emission of `_on_dom_snapshot`
(dom_structure_strategy.py:1120-1260): hit count, cooldown (with the
one-shot notice bookkeeping), loss-streak breaker, signal-frequency
guard, side resolution, positive quantity, risk authority, then emission
with the clock/cooldown updates. -/
def emissionGate (cfg : Config) (s : EngineState) (r : ReadyData)
    (nowMono2 : ℚ) (riskPermitted : Bool) : EngineState × Outcome :=
  if r.hits < r.requiredHits then (s, .belowHits)
  else if nowMono2 < s.cooldownUntil then
    if s.cooldownNoticeUntil ≠ s.cooldownUntil then
      ({ s with cooldownNoticeUntil := s.cooldownUntil }, .cooling true)
    else (s, .cooling false)
  else
    let s := { s with cooldownNoticeUntil := 0 }
    if s.breakerTripped then (s, .breaker)
    else if 0 < cfg.signalFrequencySeconds ∧
        r.nowWall - s.lastSignalWall < cfg.signalFrequencySeconds then
      (s, .frequency)
    else
      match resolveSide r.zone r.imbalance with
      | none => (s, .noSide)
      | some side =>
        if r.contractQuantity ≤ 0 then (s, .zeroQuantity)
        else if !riskPermitted then (s, .riskDenied)
        else
          let quantity := r.contractQuantity.toNat
          ({ s with
              signals := s.signals ++ [{ side := side, quantity := quantity }]
              lastSignalMono := nowMono2
              lastSignalWall := r.nowWall
              cooldownUntil := nowMono2 + r.scaledCooldown
              cooldownNoticeUntil := 0 }
           , .emitted side quantity)

/-- Translation of the whole of `_on_dom_snapshot`. -/
def processSnapshot (cfg : Config) (s : EngineState) (inp : SnapInput) :
    EngineState × Outcome :=
  match preProcess cfg s inp with
  | (s', .wrongSymbol) => (s', .wrongSymbol)
  | (s', .throttled) => (s', .throttled)
  | (s', .noMid) => (s', .noMid)
  | (s', .noZone) => (s', .noZone)
  | (s', .ready r) => emissionGate cfg s' r inp.nowMono2 inp.riskPermitted

/-! ### The gates of claim C1 -/

/-- Gate 1: the per-snapshot minimum processing interval has elapsed
(dom_structure_strategy.py:990-995). -/
abbrev gThrottle (cfg : Config) (s : EngineState) (inp : SnapInput) : Prop :=
  ¬(0 < cfg.minProcessingInterval ∧
    inp.nowMono - s.lastProcessMono < cfg.minProcessingInterval)

/-- Gate 2: the hit count reaches the regime-resolved required hits. -/
abbrev gHits (r : ReadyData) : Prop :=
  r.requiredHits ≤ r.hits

/-- Gate 3: the monotonic clock has reached `cooldown_until`. -/
abbrev gCooldown (s : EngineState) (nowMono2 : ℚ) : Prop :=
  s.cooldownUntil ≤ nowMono2

/-- Gate 4: the loss-streak breaker is not tripped. -/
abbrev gBreaker (s : EngineState) : Prop :=
  ¬ s.breakerTripped = true

/-- Gate 5: the signal-frequency guard is satisfied. -/
abbrev gFrequency (cfg : Config) (s : EngineState) (r : ReadyData) : Prop :=
  ¬(0 < cfg.signalFrequencySeconds ∧
    r.nowWall - s.lastSignalWall < cfg.signalFrequencySeconds)

/-- Gate 7: the scaled integer quantity is positive. -/
abbrev gQuantity (r : ReadyData) : Prop :=
  0 < r.contractQuantity

/-! Forward-evaluation helpers for `emissionGate` (shared by the
theorems below): each fixes one gating branch. -/

theorem eg_belowHits {cfg s r n2 risk} (h1 : r.hits < r.requiredHits) :
    emissionGate cfg s r n2 risk = (s, .belowHits) := by
  simp [emissionGate, h1]

theorem eg_cooling {cfg s r n2 risk} (h1 : ¬ r.hits < r.requiredHits)
    (h2 : n2 < s.cooldownUntil) :
    emissionGate cfg s r n2 risk =
      if s.cooldownNoticeUntil ≠ s.cooldownUntil then
        ({ s with cooldownNoticeUntil := s.cooldownUntil }, .cooling true)
      else (s, .cooling false) := by
  simp [emissionGate, h1, h2]

theorem eg_breaker {cfg s r n2 risk} (h1 : ¬ r.hits < r.requiredHits)
    (h2 : ¬ n2 < s.cooldownUntil) (h3 : s.breakerTripped = true) :
    emissionGate cfg s r n2 risk =
      ({ s with cooldownNoticeUntil := 0 }, .breaker) := by
  simp [emissionGate, h1, h2, h3]

theorem eg_frequency {cfg s r n2 risk} (h1 : ¬ r.hits < r.requiredHits)
    (h2 : ¬ n2 < s.cooldownUntil) (h3 : s.breakerTripped = false)
    (h4 : 0 < cfg.signalFrequencySeconds ∧
      r.nowWall - s.lastSignalWall < cfg.signalFrequencySeconds) :
    emissionGate cfg s r n2 risk =
      ({ s with cooldownNoticeUntil := 0 }, .frequency) := by
  simp [emissionGate, h1, h2, h3, h4]

theorem eg_noSide {cfg s r n2 risk} (h1 : ¬ r.hits < r.requiredHits)
    (h2 : ¬ n2 < s.cooldownUntil) (h3 : s.breakerTripped = false)
    (h4 : ¬(0 < cfg.signalFrequencySeconds ∧
      r.nowWall - s.lastSignalWall < cfg.signalFrequencySeconds))
    (h5 : resolveSide r.zone r.imbalance = none) :
    emissionGate cfg s r n2 risk =
      ({ s with cooldownNoticeUntil := 0 }, .noSide) := by
  simp [emissionGate, h1, h2, h3, h4, h5]

theorem eg_zeroQuantity {cfg s r n2 risk sd} (h1 : ¬ r.hits < r.requiredHits)
    (h2 : ¬ n2 < s.cooldownUntil) (h3 : s.breakerTripped = false)
    (h4 : ¬(0 < cfg.signalFrequencySeconds ∧
      r.nowWall - s.lastSignalWall < cfg.signalFrequencySeconds))
    (h5 : resolveSide r.zone r.imbalance = some sd)
    (h6 : r.contractQuantity ≤ 0) :
    emissionGate cfg s r n2 risk =
      ({ s with cooldownNoticeUntil := 0 }, .zeroQuantity) := by
  simp [emissionGate, h1, h2, h3, h4, h5, h6]

theorem eg_riskDenied {cfg s r n2 sd} (h1 : ¬ r.hits < r.requiredHits)
    (h2 : ¬ n2 < s.cooldownUntil) (h3 : s.breakerTripped = false)
    (h4 : ¬(0 < cfg.signalFrequencySeconds ∧
      r.nowWall - s.lastSignalWall < cfg.signalFrequencySeconds))
    (h5 : resolveSide r.zone r.imbalance = some sd)
    (h6 : ¬ r.contractQuantity ≤ 0) :
    emissionGate cfg s r n2 false =
      ({ s with cooldownNoticeUntil := 0 }, .riskDenied) := by
  simp [emissionGate, h1, h2, h3, h4, h5, h6]

theorem eg_emit {cfg s r n2 sd} (h1 : ¬ r.hits < r.requiredHits)
    (h2 : ¬ n2 < s.cooldownUntil) (h3 : s.breakerTripped = false)
    (h4 : ¬(0 < cfg.signalFrequencySeconds ∧
      r.nowWall - s.lastSignalWall < cfg.signalFrequencySeconds))
    (h5 : resolveSide r.zone r.imbalance = some sd)
    (h6 : ¬ r.contractQuantity ≤ 0) :
    emissionGate cfg s r n2 true =
      ({ s with
          signals := s.signals ++ [{ side := sd, quantity := r.contractQuantity.toNat }]
          lastSignalMono := n2
          lastSignalWall := r.nowWall
          cooldownUntil := n2 + r.scaledCooldown
          cooldownNoticeUntil := 0 }
       , .emitted sd r.contractQuantity.toNat) := by
  simp [emissionGate, h1, h2, h3, h4, h5, h6]

/-- Inversion: an emitted outcome fixes every gate and the emitted data
(shared helper). -/
theorem eg_emitted_inv {cfg s r n2 risk s' side q}
    (h : emissionGate cfg s r n2 risk = (s', .emitted side q)) :
    ¬ r.hits < r.requiredHits ∧ ¬ n2 < s.cooldownUntil ∧
      s.breakerTripped = false ∧
      ¬(0 < cfg.signalFrequencySeconds ∧
        r.nowWall - s.lastSignalWall < cfg.signalFrequencySeconds) ∧
      resolveSide r.zone r.imbalance = some side ∧
      ¬ r.contractQuantity ≤ 0 ∧ risk = true ∧
      q = r.contractQuantity.toNat ∧
      s' = { s with
        signals := s.signals ++ [{ side := side, quantity := r.contractQuantity.toNat }]
        lastSignalMono := n2
        lastSignalWall := r.nowWall
        cooldownUntil := n2 + r.scaledCooldown
        cooldownNoticeUntil := 0 } := by
  by_cases h1 : r.hits < r.requiredHits
  · rw [eg_belowHits h1] at h; simp at h
  by_cases h2 : n2 < s.cooldownUntil
  · rw [eg_cooling h1 h2] at h
    by_cases h3 : s.cooldownNoticeUntil ≠ s.cooldownUntil <;> simp [h3] at h
  by_cases h3 : s.breakerTripped
  · rw [eg_breaker h1 h2 h3] at h; simp at h
  have h3' : s.breakerTripped = false := by simpa using h3
  by_cases h4 : 0 < cfg.signalFrequencySeconds ∧
      r.nowWall - s.lastSignalWall < cfg.signalFrequencySeconds
  · rw [eg_frequency h1 h2 h3' h4] at h; simp at h
  rcases hside : resolveSide r.zone r.imbalance with _ | sd
  · rw [eg_noSide h1 h2 h3' h4 hside] at h; simp at h
  by_cases h6 : r.contractQuantity ≤ 0
  · rw [eg_zeroQuantity h1 h2 h3' h4 hside h6] at h; simp at h
  cases risk with
  | false => rw [eg_riskDenied h1 h2 h3' h4 hside h6] at h; simp at h
  | true =>
    rw [eg_emit h1 h2 h3' h4 hside h6] at h
    rw [Prod.mk.injEq] at h
    obtain ⟨hs', hemit⟩ := h
    rw [Outcome.emitted.injEq] at hemit
    obtain ⟨hsd, hq⟩ := hemit
    subst hsd
    exact ⟨h1, h2, h3', h4, rfl, h6, rfl, hq.symm, hs'.symm⟩

/-! ## Claim C8 — zone detection -/

/-- C8: `_detect_zone` returns support exactly when the mid is at most the
window minimum plus the tolerance, resistance exactly when support fails
and the mid is at least the window maximum minus the tolerance, no zone
otherwise; when both inequalities hold the evaluation order resolves to
support; an empty window has no extremes and produces no zone. -/
theorem zone_detection (tolTicks : ℚ) (sym : String) (mid sup res : ℚ) :
    (detectZone tolTicks sym mid (some sup) (some res) = some Zone.support ↔
      mid ≤ sup + zoneTolerance tolTicks sym)
  ∧ (detectZone tolTicks sym mid (some sup) (some res) = some Zone.resistance ↔
      ¬ mid ≤ sup + zoneTolerance tolTicks sym ∧
        res - zoneTolerance tolTicks sym ≤ mid)
  ∧ (detectZone tolTicks sym mid (some sup) (some res) = none ↔
      ¬ mid ≤ sup + zoneTolerance tolTicks sym ∧
        ¬ res - zoneTolerance tolTicks sym ≤ mid)
  ∧ (mid ≤ sup + zoneTolerance tolTicks sym →
      res - zoneTolerance tolTicks sym ≤ mid →
      detectZone tolTicks sym mid (some sup) (some res) = some Zone.support)
  ∧ structureExtremes [] = (none, none)
  ∧ detectZone tolTicks sym mid none none = none := by
  by_cases h1 : mid ≤ sup + zoneTolerance tolTicks sym <;>
    by_cases h2 : res - zoneTolerance tolTicks sym ≤ mid <;>
      simp [detectZone, structureExtremes, h1, h2]

/-- Witness for `zone_detection` at a degenerate single-sample window:
mid 100, support = resistance = 100, tolerance 2 ES ticks. -/
theorem zone_detection_witness :
    detectZone 2 "ES" 100 (some 100) (some 100) = some Zone.support := by
  have h := zone_detection 2 "ES" 100 100 100
  have ht : tickSize "ES" = 1/4 := rfl
  exact h.2.2.2.1 (by norm_num [zoneTolerance, ht])
    (by norm_num [zoneTolerance, ht])

/-! ## Claim C10 — default tick size -/

/-- C10: a symbol absent from `_TICK_SIZES` gets tick size 0.25, so the
zone tolerance is `structure_tolerance_ticks * 0.25`, the spread bound is
`max(0.25, structure_tolerance_ticks * 0.25)` and the momentum threshold
is `0.25 * momentum_tick_threshold`. -/
theorem default_tick_size (sym : String)
    (h : TICK_SIZES.lookup (toUpperStr sym) = none) :
    tickSize sym = 1/4
  ∧ (∀ tolTicks : ℚ, zoneTolerance tolTicks sym = tolTicks * (1/4))
  ∧ (∀ tolTicks : ℚ,
      spreadConditionBound tolTicks sym = max (1/4) (tolTicks * (1/4)))
  ∧ (∀ mtt : ℚ, momentumThresholdOf sym mtt = 1/4 * mtt) := by
  have ht : tickSize sym = 1/4 := by simp [tickSize, h]
  refine ⟨ht, ?_, ?_, ?_⟩
  · intro tolTicks; simp [zoneTolerance, ht]
  · intro tolTicks; simp [spreadConditionBound, ht]
  · intro mtt; simp [momentumThresholdOf, ht]

/-- Witness for `default_tick_size` at the unknown symbol "CL". -/
theorem default_tick_size_witness :
    tickSize "CL" = 1/4 ∧ momentumThresholdOf "CL" 2 = 1/2 := by
  have h := default_tick_size "CL" (by decide)
  refine ⟨h.1, ?_⟩
  rw [h.2.2.2 2]
  norm_num

/-! ## Claim C2 — threshold precedence -/

/-- Counterexample to C2 as stated: with volatility scale 2, stacking base
15, a manual override of 10 and a fresh smoothing record, the engine
compares against 10 (the override, never multiplied by the volatility
scale), while the claim's pipeline — chosen value passed through
`scale_threshold` then `smooth` — would compare against 20. -/
theorem threshold_pipeline_counterexample :
    stackingThresholdUsed 2 15 none (some 10) none none (1/2) (1/4) = 10
  ∧ thresholdPerClaim 2 (stackingBlend 15 none) (some 10) none 0 none none (1/2) (1/4) = 20
  ∧ (10 : ℚ) ≠ 20 := by
  refine ⟨?_, ?_, by norm_num⟩ <;>
    norm_num [stackingThresholdUsed, thresholdPerClaim, stackingBlend,
      scaleThreshold, smoothStep, clampRange]

/-- C2 (amended): for each of the four thresholds the compared value is
chosen with precedence manual override > model value > quantile-blended
adaptive value > static base, where the blended/static value is passed
through `scale_threshold` but the override and model values bypass it
(they are only clamped to the threshold's range), and the chosen value is
always passed through `smooth`; in particular a present override makes
the model value irrelevant. -/
theorem threshold_pipeline_amended (volScale base : ℚ)
    (q ov mv : Option ℚ) (prev : Option ℚ) (f h : ℚ) :
    stackingThresholdUsed volScale base q ov mv prev f h
      = thresholdPerAmended volScale (stackingBlend base q) ov mv 0 none prev f h
  ∧ obiLongThresholdUsed volScale base q ov mv prev f h
      = thresholdPerAmended volScale (clamp01 (obiBlend base q)) ov mv 0 (some 1) prev f h
  ∧ obiShortThresholdUsed volScale base q ov mv prev f h
      = thresholdPerAmended volScale (clamp01 (obiBlend base q)) ov mv 0 (some 1) prev f h
  ∧ ofiThresholdUsed volScale base q ov mv prev f h
      = thresholdPerAmended volScale (ofiBlend base q) ov mv 0 none prev f h
  ∧ (∀ o : ℚ, stackingThresholdUsed volScale base q (some o) mv prev f h
      = stackingThresholdUsed volScale base q (some o) none prev f h)
  ∧ (∀ o : ℚ, ofiThresholdUsed volScale base q (some o) mv prev f h
      = ofiThresholdUsed volScale base q (some o) none prev f h) := by
  refine ⟨?_, ?_, ?_, ?_, fun o => rfl, fun o => rfl⟩ <;>
    cases ov <;> cases mv <;> rfl

/-! ## Claim C9 — StrategySignal quantity coercion -/

/-- Counterexample to C9 as stated: the quantity `1 + 10⁻¹⁰` is truncated
to 1, so a positive fractional part is discarded, yet nothing is recorded
under "quantity_fractional_discarded" (parts below 1e-9 are zeroed as
floating-point noise). -/
theorem signal_quantity_counterexample :
    (mkSignalQuantityMetadata (.num (1 + 1/10^10)) []).1 = 1
  ∧ (0 : ℚ) < (1 + 1/10^10) - 1
  ∧ ((mkSignalQuantityMetadata (.num (1 + 1/10^10)) []).2).lookup
      "quantity_fractional_discarded" = none := by
  refine ⟨?_, by norm_num, ?_⟩ <;>
    norm_num [mkSignalQuantityMetadata, signalQuantityParts, clampFraction,
      clampNegFraction]

/-- C9 (amended): a finite numeric quantity is truncated toward zero
(floor for non-negative, ceiling for negative values); non-finite and
non-numeric quantities become 0; the computed fractional part is either 0
or at least 1e-9, and when it is positive (hence at least 1e-9) and the
key is not already present it is recorded under
"quantity_fractional_discarded"; `setdefault` preserves an existing
entry. -/
theorem signal_quantity_amended :
    (∀ q : ℚ, 0 ≤ q → (signalQuantityParts (.num q)).1 = ⌊q⌋)
  ∧ (∀ q : ℚ, q < 0 → (signalQuantityParts (.num q)).1 = ⌈q⌉)
  ∧ (signalQuantityParts .nonFinite).1 = 0
  ∧ (signalQuantityParts .nonNumeric).1 = 0
  ∧ (∀ raw, (signalQuantityParts raw).2 = 0 ∨
      (1/10^9 : ℚ) ≤ (signalQuantityParts raw).2)
  ∧ (∀ raw md, 0 < (signalQuantityParts raw).2 →
      md.lookup "quantity_fractional_discarded" = none →
      ((mkSignalQuantityMetadata raw md).2).lookup "quantity_fractional_discarded"
        = some (signalQuantityParts raw).2)
  ∧ (∀ raw md v, md.lookup "quantity_fractional_discarded" = some v →
      ((mkSignalQuantityMetadata raw md).2).lookup "quantity_fractional_discarded"
        = some v) := by
  have hclamp : ∀ x : ℚ, clampFraction x = 0 ∨ (1/10^9 : ℚ) ≤ clampFraction x := by
    intro x
    unfold clampFraction clampNegFraction
    by_cases hx : x < 0
    · left; simp [hx]
    · rw [if_neg hx]
      by_cases hc : 0 < x ∧ x < 1/10^9
      · left; rw [if_pos hc]
      · rw [if_neg hc]
        push_neg at hc
        rcases eq_or_lt_of_le (not_lt.mp hx) with h | h
        · exact Or.inl h.symm
        · exact Or.inr (hc h)
  refine ⟨?_, ?_, rfl, rfl, ?_, ?_, ?_⟩
  · intro q hq
    simp [signalQuantityParts, hq]
  · intro q hq
    simp [signalQuantityParts, not_le.mpr hq]
  · intro raw
    exact hclamp _
  · intro raw md hpos hnone
    simp [mkSignalQuantityMetadata, hpos, hnone, List.lookup_append]
  · intro raw md v hv
    simp [mkSignalQuantityMetadata, hv]

/-- Witness for `signal_quantity_amended` at the quantity 7/2: truncated
to 3, with the fraction 1/2 recorded. -/
theorem signal_quantity_witness :
    (signalQuantityParts (.num (7/2))).1 = 3
  ∧ ((mkSignalQuantityMetadata (.num (7/2)) []).2).lookup
      "quantity_fractional_discarded" = some ((signalQuantityParts (.num (7/2))).2) := by
  have h := signal_quantity_amended
  refine ⟨?_, ?_⟩
  · rw [h.1 (7/2) (by norm_num)]
    norm_num
  · exact h.2.2.2.2.2.1 (.num (7/2)) []
      (by norm_num [signalQuantityParts, clampFraction, clampNegFraction]) rfl

/-! ## Claim C6 — quantity scaling -/

/-- Counterexample to C6 as stated: at volatility scale 10⁻¹⁰ with
exponent 1 the 1e-9 guards make the engine's scale 10⁹ while
`clamp(volatility_scale⁻¹, bounds)` would be 10¹⁰; and with exponent 0
and bounds (1.5, 2) the scale resolves to 1.5, not to 1.0 "regardless of
volatility_scale". -/
theorem quantity_scale_counterexample :
    computeQuantityScale 1 (1/2, 10^10) (1/10^10) = 10^9
  ∧ quantityScalePerClaim 1 (1/2, 10^10) (1/10^10) = 10^10
  ∧ ((10^9 : ℚ) ≠ 10^10)
  ∧ computeQuantityScale 0 (3/2, 2) 1 = 3/2
  ∧ ((3/2 : ℚ) ≠ 1) := by
  refine ⟨?_, ?_, by norm_num, ?_, by norm_num⟩ <;>
    norm_num [computeQuantityScale, quantityScalePerClaim, clampScale]

/-- C6 (amended): the quantity scale is
`clamp(1 / max(max(volatility_scale, 1e-9) ^ exponent, 1e-9), bounds)`,
which coincides with `clamp(volatility_scale ^ (-exponent), bounds)`
whenever the scale and its power stay at or above 1e-9; with exponent 0
it resolves to `clamp(1, bounds)` regardless of the volatility scale; the
emitted quantity is the floor of the regime-resolved base quantity times
the quantity scale, and emission requires it to be positive. -/
theorem quantity_scale_amended :
    (∀ (bounds : ℚ × ℚ) (vol : ℚ) (n : ℕ), (1/10^9 : ℚ) ≤ vol →
      (1/10^9 : ℚ) ≤ vol ^ n →
      computeQuantityScale n bounds vol = clampScale ((vol ^ n)⁻¹) bounds)
  ∧ (∀ (bounds : ℚ × ℚ) (vol : ℚ),
      computeQuantityScale 0 bounds vol = clampScale 1 bounds)
  ∧ (∀ baseQty qScale : ℚ, 0 ≤ baseQty → 0 ≤ qScale →
      computeContractQuantity baseQty qScale = ⌊baseQty * qScale⌋)
  ∧ (∀ cfg s r n2 risk s' side q,
      emissionGate cfg s r n2 risk = (s', Outcome.emitted side q) →
      (q : ℤ) = r.contractQuantity ∧ 0 < r.contractQuantity) := by
  refine ⟨?_, ?_, ?_, ?_⟩
  · intro bounds vol n h1 h2
    simp only [computeQuantityScale]
    rw [max_eq_left h1]
    by_cases hz : n = 0
    · subst hz
      rw [if_pos rfl, pow_zero]
      rw [max_eq_left (by norm_num : (1/10^9 : ℚ) ≤ 1)]
      norm_num
    · rw [if_neg hz, max_eq_left h2, one_div]
  · intro bounds vol
    simp only [computeQuantityScale, if_true]
    rw [max_eq_left (by norm_num : (1/10^9 : ℚ) ≤ 1)]
    norm_num
  · intro baseQty qScale hb hq
    simp only [computeContractQuantity]
    rw [max_eq_right (mul_nonneg hb hq)]
    by_cases hpos : 0 < baseQty * qScale
    · rw [if_pos hpos]
      exact max_eq_right (Int.floor_nonneg.mpr hpos.le)
    · rw [if_neg hpos]
      have h0 : baseQty * qScale = 0 :=
        le_antisymm (not_lt.mp hpos) (mul_nonneg hb hq)
      rw [h0]
      simp
  · intro cfg s r n2 risk s' side q h
    obtain ⟨_, _, _, _, _, h6, _, hq, _⟩ := eg_emitted_inv h
    subst hq
    omega

/-- Witness for `quantity_scale_amended` at volatility scale 1,
exponent 1, default bounds. -/
theorem quantity_scale_witness :
    computeQuantityScale 1 (1/2, 2) 1 = clampScale (((1 : ℚ) ^ 1)⁻¹) (1/2, 2) :=
  quantity_scale_amended.1 (1/2, 2) 1 1 (by norm_num) (by norm_num)

/-! ## Claim C5 — external threshold-model fallback -/

/-- A failed due refresh clears the cache, stamps the refresh time, and
yields no model thresholds (shared helper). -/
theorem refresh_failed_clears (cache : List (String × ℚ))
    (last rs now : ℚ) (resp : ModelResponse)
    (hdue : refreshDue cache last rs now = true) (hfail : failedResponse resp) :
    maybeRefreshThresholdModel true true cache last rs now resp
      = ⟨[], now, none⟩ := by
  rcases hfail with h | h | h <;> subst h <;>
    simp [maybeRefreshThresholdModel, hdue, invokeThresholdModel]

/-- C5: a refresh is due exactly when no cached thresholds exist or the
refresh interval has elapsed; a due refresh whose call times out, raises,
or returns a non-mapping payload clears the cache and hands no model
thresholds to condition evaluation; starting from an empty cache, every
snapshot in a run of failing responses evaluates without model
thresholds (refreshes stay due until one succeeds); and a mapping
response is sanitized — the cache holds exactly its finite numeric
entries. -/
theorem model_fallback :
    (∀ (cache : List (String × ℚ)) (last rs now : ℚ),
      refreshDue cache last rs now = true ↔ (cache = [] ∨ rs ≤ now - last))
  ∧ (∀ (cache : List (String × ℚ)) (last rs now : ℚ) (resp : ModelResponse),
      refreshDue cache last rs now = true → failedResponse resp →
      maybeRefreshThresholdModel true true cache last rs now resp
        = ⟨[], now, none⟩)
  ∧ (∀ (rs last : ℚ) (steps : List (ℚ × ModelResponse)),
      (∀ x ∈ steps, failedResponse x.2) →
      ∀ o ∈ refreshSequence rs [] last steps, o = none)
  ∧ (∀ (cache : List (String × ℚ)) (last rs now : ℚ)
      (pairs : List (String × MVal)) (k : String) (q : ℚ),
      refreshDue cache last rs now = true →
      ((k, q) ∈ (maybeRefreshThresholdModel true true cache last rs now
          (.mapping pairs)).cache ↔ (k, MVal.num q) ∈ pairs)) := by
  refine ⟨?_, ?_, ?_, ?_⟩
  · intro cache last rs now
    simp [refreshDue, List.isEmpty_iff]
  · exact refresh_failed_clears
  · intro rs last steps
    induction steps generalizing last with
    | nil => intro _ o ho; simp [refreshSequence] at ho
    | cons step rest ih =>
      intro hall o ho
      have hdue : refreshDue [] last rs step.1 = true := by
        simp [refreshDue]
      rw [refreshSequence,
        refresh_failed_clears [] last rs step.1 step.2 hdue
          (hall step (by simp))] at ho
      rcases List.mem_cons.mp ho with h | h
      · exact h
      · exact ih step.1 (fun x hx => hall x (by simp [hx])) o h
  · intro cache last rs now pairs k q hdue
    simp only [maybeRefreshThresholdModel, hdue, invokeThresholdModel,
      Bool.not_true, Bool.false_eq_true, if_false, if_true]
    simp only [List.mem_filterMap]
    constructor
    · rintro ⟨⟨k', v⟩, hmem, hf⟩
      cases v <;> simp [coerceNumeric] at hf
      obtain ⟨rfl, rfl⟩ := hf
      exact hmem
    · intro hmem
      exact ⟨(k, MVal.num q), hmem, by simp [coerceNumeric]⟩

/-- Witness for `model_fallback`: a due refresh with a timeout clears a
non-empty cache and yields no thresholds. -/
theorem model_fallback_witness :
    maybeRefreshThresholdModel true true [("ofi_threshold", 5)] 0 1 5
      ModelResponse.timeout = ⟨[], 5, none⟩ := by
  refine model_fallback.2.1 [("ofi_threshold", 5)] 0 1 5 ModelResponse.timeout ?_ (Or.inl rfl)
  norm_num [refreshDue]

/-! ## Claim C4 — structure-window retention -/

/-- Entries ordered by non-decreasing timestamp. -/
abbrev tsLE (a b : ℚ × ℚ) : Prop := a.1 ≤ b.1

/-- In a timestamp-sorted list, everything surviving the front eviction is
at or past the cutoff (shared helper). -/
theorem dropWhile_lt_bound (c : ℚ) :
    ∀ l : List (ℚ × ℚ), l.Pairwise tsLE →
      ∀ e ∈ l.dropWhile (fun x => decide (x.1 < c)), c ≤ e.1 := by
  intro l
  induction l with
  | nil => intro _ e he; simp at he
  | cons a tl ih =>
    intro hp e he
    rw [List.pairwise_cons] at hp
    by_cases hac : a.1 < c
    · rw [List.dropWhile_cons_of_pos (by simpa using hac)] at he
      exact ih hp.2 e he
    · rw [List.dropWhile_cons_of_neg (by simpa using hac)] at he
      rcases List.mem_cons.mp he with rfl | he
      · exact not_lt.mp hac
      · exact le_trans (not_lt.mp hac) (hp.1 e he)

/-- Folding updates through the structure window preserves timestamp
order, and the window is always made of the updates it received (shared
helper). -/
theorem structRun_go (W : ℚ) :
    ∀ (ups w : List (ℚ × ℚ)), (w ++ ups).Pairwise tsLE →
      (ups.foldl (fun acc u => structUpdate W acc u.1 u.2) w).Pairwise tsLE ∧
        List.Sublist (ups.foldl (fun acc u => structUpdate W acc u.1 u.2) w)
          (w ++ ups) := by
  intro ups
  induction ups with
  | nil =>
    intro w hp
    simp only [List.foldl_nil, List.append_nil] at hp ⊢
    exact ⟨hp, List.Sublist.refl w⟩
  | cons a rest ih =>
    intro w hp
    have hsub1 : List.Sublist (structUpdate W w a.1 a.2) (w ++ [(a.1, a.2)]) :=
      List.dropWhile_sublist _
    have hsub : List.Sublist (structUpdate W w a.1 a.2 ++ rest)
        (w ++ a :: rest) := by
      have := hsub1.append (List.Sublist.refl rest)
      simpa using this
    have hp2 : (structUpdate W w a.1 a.2 ++ rest).Pairwise tsLE :=
      hp.sublist hsub
    obtain ⟨ihp, ihs⟩ := ih (structUpdate W w a.1 a.2) hp2
    exact ⟨ihp, ihs.trans hsub⟩

/-- C4: for any timestamp-sorted update sequence ending at time `t`, every
entry retained in the structure window after the final update is no older
than `t - structure_window_seconds` (and no newer than `t`); entries past
the cutoff are evicted from the front on every update.  Quantifying over
the sorted prefix covers the window state after each update of a
monotone stream. -/
theorem structure_window_retention (W t p : ℚ) (updates : List (ℚ × ℚ))
    (hmono : (updates ++ [(t, p)]).Pairwise tsLE) :
    ∀ e ∈ structRun W (updates ++ [(t, p)]), t - W ≤ e.1 ∧ e.1 ≤ t := by
  intro e he
  have hfold : structRun W (updates ++ [(t, p)])
      = structUpdate W (structRun W updates) t p := by
    rw [structRun, structRun, List.foldl_append]
    rfl
  rw [hfold] at he
  have hmup : updates.Pairwise tsLE :=
    hmono.sublist (List.sublist_append_left _ _)
  obtain ⟨hpw, hsub⟩ := structRun_go W updates [] (by simpa using hmup)
  simp only [List.nil_append] at hsub
  have hle : ∀ x ∈ structRun W updates, x.1 ≤ t := by
    intro x hx
    have hxu : x ∈ updates := hsub.subset hx
    have := (List.pairwise_append.mp hmono).2.2 x hxu (t, p) (by simp)
    exact this
  have hpw2 : (structRun W updates ++ [(t, p)]).Pairwise tsLE := by
    rw [List.pairwise_append]
    exact ⟨hpw, by simp, fun x hx b hb => by
      rcases List.mem_singleton.mp hb with rfl
      exact hle x hx⟩
  constructor
  · exact dropWhile_lt_bound (t - W) _ hpw2 e he
  · have hmem : e ∈ structRun W updates ++ [(t, p)] :=
      (List.dropWhile_sublist _).subset he
    rcases List.mem_append.mp hmem with h | h
    · exact hle e h
    · rcases List.mem_singleton.mp h with rfl
      exact le_refl t

/-- Witness for `structure_window_retention`: a 10-second window fed
samples at times 0, 15 and 20 keeps the time-15 entry, which lies within
[10, 20]. -/
theorem structure_window_retention_witness :
    (20:ℚ) - 10 ≤ (((15:ℚ), (101:ℚ))).1 ∧ (((15:ℚ), (101:ℚ))).1 ≤ 20 := by
  refine structure_window_retention 10 20 102 [(0, 100), (15, 101)]
    (by norm_num [List.pairwise_cons, tsLE]) ((15:ℚ), (101:ℚ)) ?_
  norm_num [structRun, structUpdate, List.dropWhile]

/-! ### Frame lemmas for the pre-gating stage (shared helpers) -/

theorem mrb_cooldownUntil (cfg : Config) (s : EngineState) (inp : SnapInput) (v : ℚ) :
    (modelRefreshBlock cfg s inp v).state.cooldownUntil = s.cooldownUntil := by
  unfold modelRefreshBlock; split <;> rfl

theorem mrb_cooldownNoticeUntil (cfg : Config) (s : EngineState) (inp : SnapInput) (v : ℚ) :
    (modelRefreshBlock cfg s inp v).state.cooldownNoticeUntil = s.cooldownNoticeUntil := by
  unfold modelRefreshBlock; split <;> rfl

theorem mrb_breakerTripped (cfg : Config) (s : EngineState) (inp : SnapInput) (v : ℚ) :
    (modelRefreshBlock cfg s inp v).state.breakerTripped = s.breakerTripped := by
  unfold modelRefreshBlock; split <;> rfl

theorem mrb_lastSignalWall (cfg : Config) (s : EngineState) (inp : SnapInput) (v : ℚ) :
    (modelRefreshBlock cfg s inp v).state.lastSignalWall = s.lastSignalWall := by
  unfold modelRefreshBlock; split <;> rfl

theorem mrb_signals (cfg : Config) (s : EngineState) (inp : SnapInput) (v : ℚ) :
    (modelRefreshBlock cfg s inp v).state.signals = s.signals := by
  unfold modelRefreshBlock; split <;> rfl

theorem mrb_lossStreak (cfg : Config) (s : EngineState) (inp : SnapInput) (v : ℚ) :
    (modelRefreshBlock cfg s inp v).state.lossStreak = s.lossStreak := by
  unfold modelRefreshBlock; split <;> rfl

/-- The pre-gating stage never touches the emission clocks, the breaker,
the signal queue or the loss streak (shared helper). -/
theorem preProcess_frame (cfg : Config) (s : EngineState) (inp : SnapInput) :
    (preProcess cfg s inp).1.cooldownUntil = s.cooldownUntil
  ∧ (preProcess cfg s inp).1.cooldownNoticeUntil = s.cooldownNoticeUntil
  ∧ (preProcess cfg s inp).1.breakerTripped = s.breakerTripped
  ∧ (preProcess cfg s inp).1.lastSignalWall = s.lastSignalWall
  ∧ (preProcess cfg s inp).1.signals = s.signals
  ∧ (preProcess cfg s inp).1.lossStreak = s.lossStreak := by
  unfold preProcess
  split
  · simp
  split
  · simp
  split
  · simp
  dsimp only
  split
  · simp [updateStructureState]
  · simp [updateStructureState, computeMomentum, appendTrackedMetrics,
      mrb_cooldownUntil, mrb_cooldownNoticeUntil, mrb_breakerTripped,
      mrb_lastSignalWall, mrb_signals, mrb_lossStreak]

/-- A ready pre-stage implies the throttle gate passed (shared helper). -/
theorem preProcess_ready_gThrottle {cfg : Config} {s : EngineState}
    {inp : SnapInput} {s1 : EngineState} {r : ReadyData}
    (hp : preProcess cfg s inp = (s1, PreResult.ready r)) :
    gThrottle cfg s inp := by
  by_cases hthr : gThrottle cfg s inp
  · exact hthr
  · exfalso
    unfold preProcess at hp
    by_cases hsym : toUpperStr inp.snapshot.symbol ≠ cfg.symbol
    · rw [if_pos hsym] at hp; simp at hp
    · rw [if_neg hsym, if_pos (not_not.mp hthr)] at hp; simp at hp

/-- A ready pre-stage hands the gating cascade to `emissionGate` (shared
helper). -/
theorem processSnapshot_ready {cfg : Config} {s : EngineState}
    {inp : SnapInput} {s1 : EngineState} {r : ReadyData}
    (hp : preProcess cfg s inp = (s1, PreResult.ready r)) :
    processSnapshot cfg s inp
      = emissionGate cfg s1 r inp.nowMono2 inp.riskPermitted := by
  unfold processSnapshot
  rw [hp]

/-- Inversion of a cooling outcome of the gating cascade (shared
helper). -/
theorem eg_cooling_inv {cfg : Config} {s s' : EngineState} {r : ReadyData}
    {n2 : ℚ} {risk : Bool} {b : Bool}
    (h : emissionGate cfg s r n2 risk = (s', Outcome.cooling b)) :
    ¬ r.hits < r.requiredHits ∧ n2 < s.cooldownUntil ∧
      s'.cooldownUntil = s.cooldownUntil ∧
      s'.cooldownNoticeUntil = s.cooldownUntil ∧
      b = decide (s.cooldownNoticeUntil ≠ s.cooldownUntil) := by
  by_cases h1 : r.hits < r.requiredHits
  · rw [eg_belowHits h1] at h; simp at h
  by_cases h2 : n2 < s.cooldownUntil
  · rw [eg_cooling h1 h2] at h
    by_cases h3 : s.cooldownNoticeUntil ≠ s.cooldownUntil
    · rw [if_pos h3] at h
      rw [Prod.mk.injEq] at h
      obtain ⟨hs, hb⟩ := h
      rw [Outcome.cooling.injEq] at hb
      refine ⟨h1, h2, ?_, ?_, by simp [h3, hb.symm]⟩
      · rw [← hs]
      · rw [← hs]
    · rw [if_neg h3] at h
      rw [Prod.mk.injEq] at h
      obtain ⟨hs, hb⟩ := h
      rw [Outcome.cooling.injEq] at hb
      rw [not_not] at h3
      refine ⟨h1, h2, by rw [← hs], by rw [← hs]; exact h3, by simp [h3, hb.symm]⟩
  by_cases h3 : s.breakerTripped
  · rw [eg_breaker h1 h2 h3] at h; simp at h
  have h3' : s.breakerTripped = false := by simpa using h3
  by_cases h4 : 0 < cfg.signalFrequencySeconds ∧
      r.nowWall - s.lastSignalWall < cfg.signalFrequencySeconds
  · rw [eg_frequency h1 h2 h3' h4] at h; simp at h
  rcases hside : resolveSide r.zone r.imbalance with _ | sd
  · rw [eg_noSide h1 h2 h3' h4 hside] at h; simp at h
  by_cases h6 : r.contractQuantity ≤ 0
  · rw [eg_zeroQuantity h1 h2 h3' h4 hside h6] at h; simp at h
  cases risk with
  | false => rw [eg_riskDenied h1 h2 h3' h4 hside h6] at h; simp at h
  | true => rw [eg_emit h1 h2 h3' h4 hside h6] at h; simp at h

/-! ## Claim C3 — dropped no-mid snapshot -/

/-- A configuration used by the concrete witnesses below ("ES", no
throttle, model disabled, unit sizes). -/
def cfgW : Config :=
  { symbol := "ES"
    minProcessingInterval := 0
    structureWindowSeconds := 10
    structureToleranceTicks := 2
    signalFrequencySeconds := 0
    cooldownSeconds := 15
    defaultQuantity := 1
    minSignalConditions := 3
    quantityScaleExponent := 1
    quantityScaleBounds := (1/2, 2)
    cooldownScaleExponent := 1
    cooldownScaleBounds := (1/2, 2)
    volatilityScaleBounds := (3/4, 3/2)
    momentumTickThreshold := 1/4
    thresholdModelEnabled := false
    thresholdModelRefreshSeconds := 1
    regimeOverrides := [] }

/-- An engine state used by the concrete witnesses below (fresh state,
but ten seconds into a cooldown that ends at monotonic time 100). -/
def stateW : EngineState :=
  { structureWindow := []
    recentMetrics := []
    adaptiveOverrides := []
    lastVolatilityScale := 1
    currentRegime := "normal"
    momentumReady := false
    lastMid := none
    lastProcessMono := 0
    lastSignalMono := 0
    lastSignalWall := 0
    cooldownUntil := 100
    cooldownNoticeUntil := 0
    breakerTripped := false
    lossStreak := 0
    modelCache := []
    modelLastRefresh := 0
    regimeRuntimeSettings := ⟨3, 15, 1⟩
    signals := [] }

/-- A snapshot with empty book sides and no metadata mid-price. -/
def snapNoMid : Snapshot :=
  { symbol := "ES"
    bids := []
    asks := []
    receivedAt := 50
    metaMid := none
    metaSpread := none
    metaTotalBid := none
    metaTotalAsk := none }

/-- The no-mid snapshot's processing inputs. -/
def inpNoMid : SnapInput :=
  { snapshot := snapNoMid
    nowMono := 5
    nowMono2 := 5
    scaleOracle := 1
    regimeOracle := "normal"
    metricsOracle := []
    conditionHits := 0
    hasModelClient := false
    modelResponse := .nonMapping
    riskPermitted := true }

/-- Counterexample to C3 as stated: a snapshot without a determinable
mid-price is dropped, but the engine state *is* mutated — the
processing-throttle timestamp `_last_process_monotonic` is stamped before
mid-price extraction, so the post-state differs from the pre-state. -/
theorem nomid_counterexample :
    extractMidPrice snapNoMid = none
  ∧ processSnapshot cfgW stateW inpNoMid
      = ({ stateW with lastProcessMono := 5 }, Outcome.noMid)
  ∧ ({ stateW with lastProcessMono := 5 } : EngineState) ≠ stateW := by
  refine ⟨rfl, rfl, ?_⟩
  intro h
  have := congrArg EngineState.lastProcessMono h
  simp [stateW] at this

/-- C3 (amended): a snapshot that passes the symbol filter and the
processing-interval throttle but has no determinable mid-price is dropped
with outcome `noMid`, and the only engine-state mutation is
`_last_process_monotonic := now`. -/
theorem nomid_frame_amended (cfg : Config) (s : EngineState) (inp : SnapInput)
    (hsym : toUpperStr inp.snapshot.symbol = cfg.symbol)
    (hthr : gThrottle cfg s inp)
    (hmid : extractMidPrice inp.snapshot = none) :
    processSnapshot cfg s inp
      = ({ s with lastProcessMono := inp.nowMono }, Outcome.noMid) := by
  have hpre : preProcess cfg s inp
      = ({ s with lastProcessMono := inp.nowMono }, PreResult.noMid) := by
    unfold preProcess
    rw [if_neg (by simp [hsym]), if_neg hthr, hmid]
  unfold processSnapshot
  rw [hpre]

/-- Witness for `nomid_frame_amended` on the concrete no-mid snapshot. -/
theorem nomid_frame_witness :
    processSnapshot cfgW stateW inpNoMid
      = ({ stateW with lastProcessMono := 5 }, Outcome.noMid) :=
  nomid_frame_amended cfgW stateW inpNoMid rfl
    (by norm_num [gThrottle, cfgW]) rfl

/-! ## Claim C7 — cooldown suppression -/

/-- C7: a successful emission at monotonic time `n2` sets `cooldown_until`
to `n2 + scaled_cooldown`; a snapshot whose gating reaches the cooldown
check (ready pre-stage with the hit count satisfied) at a monotonic time
earlier than `cooldown_until` suppresses emission with a `cooling`
outcome, leaves `cooldown_until` unchanged, emits the "entering cooldown"
notice exactly when the notice marker differs from the current cooldown,
and then marks the notice as sent; the pre-stage never touches the
cooldown fields; and a second suppressed snapshot within the same
cooldown period emits no notice (at most one notice per period). -/
theorem cooldown_suppression :
    (∀ cfg (s : EngineState) r n2 risk s' side q,
        emissionGate cfg s r n2 risk = (s', Outcome.emitted side q) →
        s'.cooldownUntil = n2 + r.scaledCooldown)
  ∧ (∀ cfg (s : EngineState) inp s1 r,
        preProcess cfg s inp = (s1, PreResult.ready r) →
        gHits r → inp.nowMono2 < s1.cooldownUntil →
        (processSnapshot cfg s inp).1.cooldownUntil = s.cooldownUntil
        ∧ (processSnapshot cfg s inp).2
            = Outcome.cooling (decide (s1.cooldownNoticeUntil ≠ s1.cooldownUntil))
        ∧ (processSnapshot cfg s inp).1.cooldownNoticeUntil = s1.cooldownUntil)
  ∧ (∀ cfg (s : EngineState) inp,
        (preProcess cfg s inp).1.cooldownUntil = s.cooldownUntil
        ∧ (preProcess cfg s inp).1.cooldownNoticeUntil = s.cooldownNoticeUntil)
  ∧ (∀ cfg (s : EngineState) inp s' b inp2 s2 r2,
        processSnapshot cfg s inp = (s', Outcome.cooling b) →
        preProcess cfg s' inp2 = (s2, PreResult.ready r2) →
        gHits r2 → inp2.nowMono2 < s2.cooldownUntil →
        (processSnapshot cfg s' inp2).2 = Outcome.cooling false) := by
  refine ⟨?_, ?_, ?_, ?_⟩
  · intro cfg s r n2 risk s' side q h
    obtain ⟨_, _, _, _, _, _, _, _, hs'⟩ := eg_emitted_inv h
    rw [hs']
  · intro cfg s inp s1 r hp hh hlt
    have hps := processSnapshot_ready hp
    have hs1 : (preProcess cfg s inp).1 = s1 := by rw [hp]
    have hframe := preProcess_frame cfg s inp
    rw [hps, eg_cooling (not_lt.mpr hh) hlt]
    by_cases h3 : s1.cooldownNoticeUntil ≠ s1.cooldownUntil
    · rw [if_pos h3]
      refine ⟨?_, by simp [h3], by simp⟩
      show s1.cooldownUntil = s.cooldownUntil
      rw [← hs1]
      exact hframe.1
    · rw [if_neg h3]
      rw [not_not] at h3
      refine ⟨?_, by simp [h3], by simp [h3]⟩
      show s1.cooldownUntil = s.cooldownUntil
      rw [← hs1]
      exact hframe.1
  · intro cfg s inp
    exact ⟨(preProcess_frame cfg s inp).1, (preProcess_frame cfg s inp).2.1⟩
  · intro cfg s inp s' b inp2 s2 r2 h hp2 hh2 hlt2
    have hinv : s'.cooldownNoticeUntil = s'.cooldownUntil := by
      unfold processSnapshot at h
      rcases hp : preProcess cfg s inp with ⟨s1, res⟩
      rw [hp] at h
      cases res with
      | wrongSymbol => simp at h
      | throttled => simp at h
      | noMid => simp at h
      | noZone => simp at h
      | ready r =>
        obtain ⟨_, _, hcu, hcn, _⟩ := eg_cooling_inv h
        rw [hcn, hcu]
    have hs2 : (preProcess cfg s' inp2).1 = s2 := by rw [hp2]
    have hf := preProcess_frame cfg s' inp2
    have heqn : s2.cooldownNoticeUntil = s2.cooldownUntil := by
      rw [← hs2, hf.2.1, hinv, ← hf.1, hs2]
    rw [processSnapshot_ready hp2, eg_cooling (not_lt.mpr hh2) hlt2,
      if_neg (not_not_intro heqn)]

/-- The snapshot used by the cooldown witness (metadata-supplied mid). -/
def snapW : Snapshot :=
  { symbol := "ES"
    bids := []
    asks := []
    receivedAt := 50
    metaMid := some 100
    metaSpread := none
    metaTotalBid := none
    metaTotalAsk := none }

/-- Processing inputs for the cooldown witness: second monotonic reading
50, inside the cooldown ending at 100. -/
def inpWC : SnapInput :=
  { snapshot := snapW
    nowMono := 10
    nowMono2 := 50
    scaleOracle := 1
    regimeOracle := "normal"
    metricsOracle := []
    conditionHits := 5
    hasModelClient := false
    modelResponse := .nonMapping
    riskPermitted := true }

/-- The engine state after the witness snapshot's pre-gating stage. -/
def s1W : EngineState :=
  { stateW with
    structureWindow := [(50, 100)]
    recentMetrics := [[("timestamp", 50), ("mid_price", 100), ("volatility_scale", 1)]]
    lastMid := some 100
    lastProcessMono := 10 }

/-- The gating data of the witness snapshot. -/
def rW : ReadyData :=
  { zone := .support
    imbalance := 0
    nowWall := 50
    hits := 5
    requiredHits := 3
    scaledCooldown := 15
    contractQuantity := 1 }

/-- The witness snapshot's pre-gating stage evaluates to `s1W` and `rW`
(shared helper for the remaining witnesses). -/
theorem preProcessW : preProcess cfgW stateW inpWC = (s1W, PreResult.ready rW) := by
  have e1 : toUpperStr "ES" = "ES" := rfl
  have e2 : resolveRegimeSettings cfgW "normal" = ⟨3, 15, 1⟩ := rfl
  have e3 : tickSize "ES" = 1/4 := rfl
  have c1 : cfgW.symbol = "ES" := rfl
  have c2 : cfgW.minProcessingInterval = 0 := rfl
  have c3 : cfgW.structureWindowSeconds = 10 := rfl
  have c4 : cfgW.structureToleranceTicks = 2 := rfl
  have c5 : cfgW.thresholdModelEnabled = false := rfl
  have c6 : cfgW.quantityScaleExponent = 1 := rfl
  have c7 : cfgW.quantityScaleBounds = (1/2, 2) := rfl
  have c8 : cfgW.cooldownScaleExponent = 1 := rfl
  have c9 : cfgW.cooldownScaleBounds = (1/2, 2) := rfl
  have t1 : stateW.structureWindow = [] := rfl
  have t2 : stateW.recentMetrics = [] := rfl
  have t3 : stateW.adaptiveOverrides = [] := rfl
  have t4 : stateW.lastVolatilityScale = 1 := rfl
  have t5 : stateW.lastMid = none := rfl
  have t6 : stateW.lastProcessMono = 0 := rfl
  have t7 : stateW.currentRegime = "normal" := rfl
  have t8 : stateW.momentumReady = false := rfl
  have t9 : stateW.regimeRuntimeSettings = ⟨3, 15, 1⟩ := rfl
  norm_num [preProcess, snapW, inpWC, s1W, rW,
    extractMidPrice, computeImbalance, computeSpread, updateStructureState,
    structUpdate, structureExtremes, detectZone, zoneTolerance, trendScore,
    computeMomentum, appendTrackedMetrics, trackedKeys, modelRefreshBlock,
    computeQuantityScale, computeCooldownScale, computeContractQuantity,
    clampScale, e1, e2, e3, c1, c2, c3, c4, c5, c6, c7, c8, c9,
    t1, t2, t3, t4, t5, t6, t7, t8, t9, List.lookup, List.dropWhile,
    max_def, min_def]

/-- Witness for `cooldown_suppression`: the witness snapshot is inside the
cooldown ending at 100, so it cools (with the one-time notice) and leaves
`cooldown_until` at 100. -/
theorem cooldown_suppression_witness :
    (processSnapshot cfgW stateW inpWC).1.cooldownUntil = 100
  ∧ (processSnapshot cfgW stateW inpWC).2 = Outcome.cooling true := by
  have h := cooldown_suppression.2.1 cfgW stateW inpWC s1W rW preProcessW
    (by norm_num [gHits, rW]) (by norm_num [inpWC, s1W, stateW])
  refine ⟨?_, ?_⟩
  · rw [h.1]
    rfl
  · rw [h.2.1]
    norm_num [s1W, stateW]

/-! ## Claim C1 — gating order with short-circuit -/

/-- C1: a signal is emitted only when every gate passes — throttle, hit
count, cooldown, breaker, frequency guard, side resolution, positive
quantity and risk permission — and the gates are checked in that order
with short-circuit on the first failure: each conjunct below fixes the
outcome produced when the earlier gates pass and one gate fails, so no
later gate influences the result; the final conjuncts place the throttle
first (it drops the snapshot before anything else runs) and connect
emission through `processSnapshot` to the cascade. -/
theorem dom_gating_order :
    (∀ cfg (s : EngineState) r n2 risk s' side q,
        emissionGate cfg s r n2 risk = (s', Outcome.emitted side q) →
        gHits r ∧ gCooldown s n2 ∧ gBreaker s ∧ gFrequency cfg s r ∧
          resolveSide r.zone r.imbalance = some side ∧ gQuantity r ∧
          risk = true)
  ∧ (∀ cfg (s : EngineState) r n2 risk, ¬ gHits r →
        (emissionGate cfg s r n2 risk).2 = Outcome.belowHits)
  ∧ (∀ cfg (s : EngineState) r n2 risk, gHits r → ¬ gCooldown s n2 →
        ∃ b, (emissionGate cfg s r n2 risk).2 = Outcome.cooling b)
  ∧ (∀ cfg (s : EngineState) r n2 risk, gHits r → gCooldown s n2 →
        ¬ gBreaker s →
        (emissionGate cfg s r n2 risk).2 = Outcome.breaker)
  ∧ (∀ cfg (s : EngineState) r n2 risk, gHits r → gCooldown s n2 →
        gBreaker s → ¬ gFrequency cfg s r →
        (emissionGate cfg s r n2 risk).2 = Outcome.frequency)
  ∧ (∀ cfg (s : EngineState) r n2 risk, gHits r → gCooldown s n2 →
        gBreaker s → gFrequency cfg s r →
        resolveSide r.zone r.imbalance = none →
        (emissionGate cfg s r n2 risk).2 = Outcome.noSide)
  ∧ (∀ cfg (s : EngineState) r n2 risk sd, gHits r → gCooldown s n2 →
        gBreaker s → gFrequency cfg s r →
        resolveSide r.zone r.imbalance = some sd → ¬ gQuantity r →
        (emissionGate cfg s r n2 risk).2 = Outcome.zeroQuantity)
  ∧ (∀ cfg (s : EngineState) r n2 sd, gHits r → gCooldown s n2 →
        gBreaker s → gFrequency cfg s r →
        resolveSide r.zone r.imbalance = some sd → gQuantity r →
        (emissionGate cfg s r n2 false).2 = Outcome.riskDenied)
  ∧ (∀ cfg (s : EngineState) r n2 sd, gHits r → gCooldown s n2 →
        gBreaker s → gFrequency cfg s r →
        resolveSide r.zone r.imbalance = some sd → gQuantity r →
        (emissionGate cfg s r n2 true).2
          = Outcome.emitted sd r.contractQuantity.toNat)
  ∧ (∀ cfg (s : EngineState) inp,
        toUpperStr inp.snapshot.symbol = cfg.symbol →
        ¬ gThrottle cfg s inp →
        processSnapshot cfg s inp = (s, Outcome.throttled))
  ∧ (∀ cfg (s : EngineState) inp s' side q,
        processSnapshot cfg s inp = (s', Outcome.emitted side q) →
        gThrottle cfg s inp ∧
          ∃ s1 r, preProcess cfg s inp = (s1, PreResult.ready r) ∧
            emissionGate cfg s1 r inp.nowMono2 inp.riskPermitted
              = (s', Outcome.emitted side q)) := by
  have hbf : ∀ s : EngineState, gBreaker s → s.breakerTripped = false := by
    intro s hb
    simpa using hb
  refine ⟨?_, ?_, ?_, ?_, ?_, ?_, ?_, ?_, ?_, ?_, ?_⟩
  · intro cfg s r n2 risk s' side q h
    obtain ⟨h1, h2, h3, h4, h5, h6, h7, _, _⟩ := eg_emitted_inv h
    exact ⟨not_lt.mp h1, not_lt.mp h2, by simp [h3], h4, h5, not_le.mp h6, h7⟩
  · intro cfg s r n2 risk hh
    rw [eg_belowHits (not_le.mp hh)]
  · intro cfg s r n2 risk hh hc
    rw [eg_cooling (not_lt.mpr hh) (not_le.mp hc)]
    by_cases h3 : s.cooldownNoticeUntil ≠ s.cooldownUntil
    · exact ⟨true, by rw [if_pos h3]⟩
    · exact ⟨false, by rw [if_neg h3]⟩
  · intro cfg s r n2 risk hh hc hb
    rw [eg_breaker (not_lt.mpr hh) (not_lt.mpr hc) (not_not.mp hb)]
  · intro cfg s r n2 risk hh hc hb hf
    rw [eg_frequency (not_lt.mpr hh) (not_lt.mpr hc) (hbf s hb) (not_not.mp hf)]
  · intro cfg s r n2 risk hh hc hb hf hside
    rw [eg_noSide (not_lt.mpr hh) (not_lt.mpr hc) (hbf s hb) hf hside]
  · intro cfg s r n2 risk sd hh hc hb hf hside hq
    rw [eg_zeroQuantity (not_lt.mpr hh) (not_lt.mpr hc) (hbf s hb) hf hside
      (not_lt.mp hq)]
  · intro cfg s r n2 sd hh hc hb hf hside hq
    rw [eg_riskDenied (not_lt.mpr hh) (not_lt.mpr hc) (hbf s hb) hf hside
      (not_le.mpr hq)]
  · intro cfg s r n2 sd hh hc hb hf hside hq
    rw [eg_emit (not_lt.mpr hh) (not_lt.mpr hc) (hbf s hb) hf hside
      (not_le.mpr hq)]
  · intro cfg s inp hsym hthr
    have hpre : preProcess cfg s inp = (s, PreResult.throttled) := by
      unfold preProcess
      rw [if_neg (by simp [hsym]), if_pos (not_not.mp hthr)]
    unfold processSnapshot
    rw [hpre]
  · intro cfg s inp s' side q h
    unfold processSnapshot at h
    rcases hp : preProcess cfg s inp with ⟨s1, res⟩
    rw [hp] at h
    cases res with
    | wrongSymbol => simp at h
    | throttled => simp at h
    | noMid => simp at h
    | noZone => simp at h
    | ready r => exact ⟨preProcess_ready_gThrottle hp, s1, r, rfl, h⟩

/-- Witness for `dom_gating_order`: a hit count below the requirement
produces the `belowHits` outcome. -/
theorem dom_gating_order_witness :
    (emissionGate cfgW stateW
      { zone := .support
        imbalance := 0
        nowWall := 0
        hits := 1
        requiredHits := 3
        scaledCooldown := 15
        contractQuantity := 1 } 0 true).2 = Outcome.belowHits :=
  dom_gating_order.2.1 cfgW stateW _ 0 true (by norm_num [gHits])

end DomStructure
